import Mathlib

set_option maxHeartbeats 1000000

/-!
Shallow embedding of the Shopify/Cloudflare-D1 example app:
* `src/app/routes/db.service.ts` — the `DatabaseService` wrapper around the D1
  driver (modelled with an abstract driver whose calls may fail);
* `src/app/routes/app.d1example.tsx` — the settings route: server `loader` and
  `action` over the persisted table `example_table(key TEXT PRIMARY KEY,
  value TEXT, updated_at INTEGER)`, plus the client view state
  (`handleCheckboxChange` and the fetcher-response effect);
* `src/app/routes/app.web-components.tsx` — the gallery view: `handleSort`,
  `sortedComponentStatusData` and `handleSave`.
All embedded functions are total; where the TypeScript throws, the model
returns `Except.error` carrying the thrown message.
-/

/- ## db.service.ts : DatabaseService -/

/-- A positional SQL parameter as passed to D1 `bind` (the routes pass strings
and numeric `Date.now()` timestamps). -/
inductive DbParam where
  | str (s : String)
  | num (n : Nat)
deriving DecidableEq

/-- One row of `example_table(key TEXT PRIMARY KEY, value TEXT, updated_at INTEGER)`. -/
structure SettingRow where
  key : String
  value : String
  updated_at : Nat
deriving DecidableEq

/-- Result object of `statement.all()`: `{ results: [...] }` (the routes read
`.results || []`). -/
structure D1AllResult where
  results : Option (List SettingRow)
deriving DecidableEq

/-- Result of `run()` / `exec()`; the routes never inspect it, so a bare marker
suffices. -/
structure D1ExecResult where
  ok : Bool
deriving DecidableEq

/-- The D1 driver as seen through the calls `db.service.ts` makes:
`db.exec(query)`, `db.prepare(query).bind(...params).run()/all()/first()`, and
the unbound `prepare(query).all()/first()`.  Each call either succeeds or
fails; a failure carries the thrown error's message. -/
structure D1Database where
  execQ : String → Except String D1ExecResult
  bindRun : String → List DbParam → Except String D1ExecResult
  bindAll : String → List DbParam → Except String D1AllResult
  allNoBind : String → Except String D1AllResult
  bindFirst : String → List DbParam → Except String (Option SettingRow)
  firstNoBind : String → Except String (Option SettingRow)

/-- `DatabaseService.executeQuery`: with no handle set, throws
`"Database not available"` without touching any driver; with a handle, uses
`prepare`+`bind`+`run` when params are present and `exec` otherwise.  The
`try/catch` in the source logs and rethrows the driver's error unchanged,
which in this model is the identity on the `Except`. -/
def DatabaseService.executeQuery (db : Option D1Database) (query : String)
    (params : List DbParam) : Except String D1ExecResult :=
  match db with
  | none => .error "Database not available"
  | some d => if params.length > 0 then d.bindRun query params else d.execQ query

/-- `DatabaseService.getAllRows`: availability check, then
`prepare(query).bind(...).all()` or `prepare(query).all()`; driver errors are
logged and rethrown unchanged. -/
def DatabaseService.getAllRows (db : Option D1Database) (query : String)
    (params : List DbParam) : Except String D1AllResult :=
  match db with
  | none => .error "Database not available"
  | some d => if params.length > 0 then d.bindAll query params else d.allNoBind query

/-- `DatabaseService.getFirstRow`: availability check, then
`prepare(query).bind(...).first()` or `prepare(query).first()`; driver errors
are logged and rethrown unchanged. -/
def DatabaseService.getFirstRow (db : Option D1Database) (query : String)
    (params : List DbParam) : Except String (Option SettingRow) :=
  match db with
  | none => .error "Database not available"
  | some d => if params.length > 0 then d.bindFirst query params else d.firstNoBind query

/- ## app.d1example.tsx : server loader and action -/

/-- The state of `example_table` as a list of rows in SELECT (rowid) order. -/
abbrev Table := List SettingRow

/-- `INSERT OR REPLACE INTO example_table (key, value, updated_at) VALUES (?, ?, ?)`.
SQLite REPLACE deletes any row conflicting on the primary key and inserts the
new row with a fresh rowid, so the new row comes last in unordered SELECT
order. -/
def upsertRow (t : Table) (k v : String) (now : Nat) : Table :=
  t.filter (fun r => r.key != k) ++ [⟨k, v, now⟩]

/-- The loader's JSON payload
`{ isChecked, settingsTableName, dbAvailable, allSettings, error? }`. -/
structure LoaderResult where
  isChecked : Bool
  settingsTableName : String
  dbAvailable : Bool
  allSettings : Table
  error : Option String
deriving DecidableEq

/-- The `loader` of `app.d1example.tsx` on the driver-succeeding path.
`db = none` models `initFromContext` finding no `DB` binding.  With a binding,
the loader runs `CREATE TABLE IF NOT EXISTS` (identity on the row list),
`getFirstRow` of the value for key `"test_checkbox"` (the first row matching
the key), coerces the stored string with `result && result.value === "true"`,
and returns all rows. -/
def runLoader (db : Option Table) : LoaderResult :=
  match db with
  | some t =>
    let result := t.find? (fun r => r.key == "test_checkbox")
    let isChecked : Bool :=
      match result with
      | some r => r.value == "true"
      | none => false
    { isChecked := isChecked, settingsTableName := "example_table",
      dbAvailable := true, allSettings := t, error := none }
  | none =>
    { isChecked := false, settingsTableName := "example_table",
      dbAvailable := false, allSettings := [], error := none }

/-- A submitted form body: field names to values, `get` being first match. -/
abbrev FormData := List (String × String)

/-- `formData.get(name)`: the first field with that name, or null. -/
def formGet (fd : FormData) (k : String) : Option String :=
  (fd.find? (fun p => p.1 == k)).map (fun p => p.2)

/-- The action's JSON payload
`{ success, isChecked?, allSettings?, error? }`. -/
structure ActionResult where
  success : Bool
  isChecked : Option Bool
  allSettings : Option Table
  error : Option String
deriving DecidableEq

/-- The `action` of `app.d1example.tsx` on the driver-succeeding path, returning
its payload together with the resulting table state.  It parses
`formData.get("action")`; for `"updateSettings"` it reads
`formData.get("isChecked") === "true"`, and with a DB binding upserts
`("test_checkbox", isChecked ? "true" : "false", Date.now())` and returns the
refreshed rows; without a binding it reports `"Database not available"`; any
other action reports `"Unknown action"`. -/
def runAction (form : FormData) (db : Option Table) (now : Nat) :
    ActionResult × Option Table :=
  if formGet form "action" == some "updateSettings" then
    let isChecked : Bool := formGet form "isChecked" == some "true"
    match db with
    | some t =>
      let t2 := upsertRow t "test_checkbox" (if isChecked then "true" else "false") now
      ({ success := true, isChecked := some isChecked,
         allSettings := some t2, error := none }, some t2)
    | none =>
      ({ success := false, isChecked := none, allSettings := none,
         error := some "Database not available" }, none)
  else
    ({ success := false, isChecked := none, allSettings := none,
       error := some "Unknown action" }, db)

/-- The form the settings view submits for a toggle: `handleCheckboxChange`
appends `action=updateSettings` and `isChecked=checked.toString()`. -/
def mkForm (b : Bool) : FormData :=
  [("action", "updateSettings"), ("isChecked", if b then "true" else "false")]

/-- The rows of a table carrying a given key, in order. -/
def rowsFor (t : Table) (k : String) : List SettingRow :=
  t.filter (fun r => r.key == k)

/-- Number of rows for a key. -/
def countKey (t : Table) (k : String) : Nat :=
  (rowsFor t k).length

/- ## app.d1example.tsx : client view state -/

/-- The settings view's local React state: `checkboxState`, `saveError`,
`tableData`. -/
structure ClientState where
  checkboxState : Bool
  saveError : String
  tableData : Table
deriving DecidableEq

/-- `handleCheckboxChange` of the settings view: unconditionally sets the local
checkbox state to the new value, then (only when `dbAvailable`) builds the form
and calls `fetcher.submit`.  Returns the new state and whether a submission was
initiated (the toast calls carry no state). -/
def handleCheckboxChange (s : ClientState) (checked : Bool) (dbAvailable : Bool) :
    ClientState × Bool :=
  ({ s with checkboxState := checked }, dbAvailable)

/-- JS truthiness of the optional `error` string: present and non-empty. -/
def optTruthy : Option String → Bool
  | none => false
  | some e => e != ""

/-- The `useEffect` on `fetcher.data`: sets `saveError` to the payload's error
when the payload reports failure with a truthy error and clears it otherwise,
and replaces `tableData` when the payload reports success with a row set.
(A JS array is always truthy, so that test is presence of `allSettings`.)
It never touches `checkboxState`. -/
def fetcherEffect (s : ClientState) (data : Option ActionResult) : ClientState :=
  let s1 :=
    match data with
    | some d =>
      if !d.success && optTruthy d.error then { s with saveError := d.error.getD "" }
      else { s with saveError := "" }
    | none => { s with saveError := "" }
  match data with
  | some d =>
    if d.success then
      match d.allSettings with
      | some rows => { s1 with tableData := rows }
      | none => s1
    else s1
  | none => s1

/- ## app.web-components.tsx : status-table sorting -/

/-- The three sortable columns of the component-status table (the only keys
`handleSort` is ever called with). -/
inductive SortKey where
  | name
  | status
  | time
deriving DecidableEq

/-- Sort direction strings 'asc' / 'desc'. -/
inductive SortDir where
  | asc
  | desc
deriving DecidableEq

/-- The `sortConfig` state `{ key, direction }`; `key = none` is the initial
unsorted state (`key: null`). -/
structure SortConfig where
  key : Option SortKey
  direction : SortDir
deriving DecidableEq

/-- `useState({ key: null, direction: 'asc' })`. -/
def initialSortConfig : SortConfig := ⟨none, SortDir.asc⟩

/-- `handleSort(key)`: direction starts as 'asc' and becomes 'desc' exactly when
the clicked key is already the sorted key with direction 'asc'. -/
def handleSort (cfg : SortConfig) (k : SortKey) : SortConfig :=
  let direction :=
    if cfg.key = some k ∧ cfg.direction = SortDir.asc then SortDir.desc
    else SortDir.asc
  ⟨some k, direction⟩

/-- A row of the component-status table: `{ id, name, status, time }`. -/
structure StatusEntry where
  id : String
  name : String
  status : String
  time : String
deriving DecidableEq

/-- `a[sortConfig.key]` for the three sortable columns. -/
def colVal (k : SortKey) (e : StatusEntry) : String :=
  match k with
  | SortKey.name => e.name
  | SortKey.status => e.status
  | SortKey.time => e.time

/-- The comparator passed to `.sort`: `-1` / `1` by `<` and `>` on the column
values, flipped for 'desc', `0` when neither compares. -/
def jsCompare (k : SortKey) (dir : SortDir) (a b : StatusEntry) : Int :=
  if colVal k a < colVal k b then (if dir = SortDir.asc then -1 else 1)
  else if colVal k b < colVal k a then (if dir = SortDir.asc then 1 else -1)
  else 0

/-- The "comes no later than" relation induced by the comparator. -/
def jsLe (k : SortKey) (dir : SortDir) (a b : StatusEntry) : Bool :=
  decide (jsCompare k dir a b ≤ 0)

/-- `sortedComponentStatusData`: the list itself when no sort key is set,
otherwise a sorted copy (`[...data].sort(comparator)`).  ECMAScript
`Array.prototype.sort` is stable, and for this consistent comparator the
stable sorted order is unique, so the stable `List.mergeSort` by
comparator-nonpositive models it. -/
def sortedComponentStatusData (cfg : SortConfig) (l : List StatusEntry) :
    List StatusEntry :=
  match cfg.key with
  | none => l
  | some k => l.mergeSort (jsLe k cfg.direction)

/- ## app.web-components.tsx : modal save -/

/-- The gallery view state touched by `handleSave`: the submitted-names list
(name with display time), the component status log, the controlled name input,
and whether the modal is open. -/
structure GalleryState where
  submittedNames : List (String × String)
  componentStatusData : List StatusEntry
  nameInputValue : String
  modalOpen : Bool
deriving DecidableEq

/-- `handleSave`: when the input is truthy and does not trim to empty, appends
the trimmed name with the current time to the submitted list and (via
`addSubmittedNameToComponentStatus`) to the status log, clears the input and
hides the modal; otherwise only a critical toast is shown.  Returns the new
state and whether the toast was shown. -/
def handleSave (s : GalleryState) (currentTime : String) (nowId : Nat) :
    GalleryState × Bool :=
  if s.nameInputValue != "" && s.nameInputValue.trim != "" then
    let newName := s.nameInputValue.trim
    ({ submittedNames := s.submittedNames ++ [(newName, currentTime)],
       componentStatusData := s.componentStatusData ++
         [⟨"submitted-" ++ toString nowId, "Submitted Name: " ++ newName,
           "Submitted", currentTime⟩],
       nameInputValue := "",
       modalOpen := false }, false)
  else
    (s, true)

/- ## Helper lemmas on the table model -/

theorem find?_filter_key_ne (t : Table) (k : String) :
    (t.filter (fun r => r.key != k)).find? (fun r => r.key == k) = none := by
  rw [List.find?_eq_none]
  intro x hx
  have := (List.mem_filter.mp hx).2
  simp_all

theorem find?_upsert_self (t : Table) (k v : String) (now : Nat) :
    (upsertRow t k v now).find? (fun r => r.key == k) = some ⟨k, v, now⟩ := by
  simp [upsertRow, find?_filter_key_ne]

theorem rowsFor_upsert_self (t : Table) (k v : String) (now : Nat) :
    rowsFor (upsertRow t k v now) k = [⟨k, v, now⟩] := by
  simp [rowsFor, upsertRow, List.filter_append, List.filter_filter]

theorem rowsFor_upsert_other (t : Table) (k k2 v : String) (now : Nat)
    (h : k2 ≠ k) :
    rowsFor (upsertRow t k v now) k2 = rowsFor t k2 := by
  simp only [rowsFor, upsertRow, List.filter_append, List.filter_filter]
  rw [List.filter_congr (q := fun r => r.key == k2), List.filter_singleton]
  · have hkk : (k == k2) = false := beq_eq_false_iff_ne.mpr (Ne.symm h)
    simp [hkk]
  · intro r _
    by_cases hr : r.key = k2
    · simp [hr, h]
    · simp [hr]

theorem runAction_mkForm (b : Bool) (t : Table) (now : Nat) :
    runAction (mkForm b) (some t) now =
      ({ success := true, isChecked := some b,
         allSettings :=
           some (upsertRow t "test_checkbox" (if b then "true" else "false") now),
         error := none },
       some (upsertRow t "test_checkbox" (if b then "true" else "false") now)) := by
  cases b <;> rfl

/- ## Claims about the settings round trip -/

/-- C1: submitting the write endpoint with `action=updateSettings` and
`isChecked` encoding a boolean `b`, then running the read loader on the
resulting database (handle present, driver succeeding), succeeds, stores the
row `("test_checkbox", "true"/"false", now)`, and yields a read payload whose
`isChecked` equals `b`. -/
theorem settings_roundTrip (b : Bool) (t : Table) (now : Nat) :
    ((runAction (mkForm b) (some t) now).1.success = true) ∧
    ((runLoader (runAction (mkForm b) (some t) now).2).allSettings.find?
        (fun r => r.key == "test_checkbox")
      = some ⟨"test_checkbox", if b then "true" else "false", now⟩) ∧
    ((runLoader (runAction (mkForm b) (some t) now).2).isChecked = b) := by
  rw [runAction_mkForm]
  refine ⟨rfl, ?_, ?_⟩
  · simpa [runLoader] using find?_upsert_self t "test_checkbox"
      (if b then "true" else "false") now
  · simp only [runLoader, find?_upsert_self]
    cases b <;> rfl

/-- C10: the write handler treats `isChecked` as true exactly when the field's
value is the string `"true"`; every other value (or a missing field) is stored
as `"false"`, and no `isChecked` value is ever rejected (`success` is true
whenever the database is present). -/
theorem isChecked_strict_parsing (form : FormData) (t : Table) (now : Nat)
    (h : formGet form "action" = some "updateSettings") :
    ((runAction form (some t) now).1.success = true) ∧
    ((runAction form (some t) now).1.isChecked
        = some (formGet form "isChecked" == some "true")) ∧
    (rowsFor ((runAction form (some t) now).2.getD []) "test_checkbox"
      = [⟨"test_checkbox",
          if formGet form "isChecked" == some "true" then "true" else "false",
          now⟩]) := by
  simp [runAction, h, rowsFor_upsert_self]

/-- Witness for C10 at a malformed value: `isChecked=banana` is stored as
`"false"` and the submission succeeds. -/
theorem isChecked_strict_parsing_witness :
    ((runAction [("action", "updateSettings"), ("isChecked", "banana")]
        (some []) 5).1.success = true) ∧
    ((runAction [("action", "updateSettings"), ("isChecked", "banana")]
        (some []) 5).1.isChecked
      = some (formGet [("action", "updateSettings"), ("isChecked", "banana")]
          "isChecked" == some "true")) ∧
    (rowsFor ((runAction [("action", "updateSettings"), ("isChecked", "banana")]
        (some []) 5).2.getD []) "test_checkbox"
      = [⟨"test_checkbox",
          if formGet [("action", "updateSettings"), ("isChecked", "banana")]
              "isChecked" == some "true"
          then "true" else "false", 5⟩]) :=
  isChecked_strict_parsing [("action", "updateSettings"), ("isChecked", "banana")]
    [] 5 rfl

/-- C3: with no database binding, the loader returns
`dbAvailable:false, isChecked:false, allSettings:[]` (and no thrown error is
modelled: the function is total), and the `updateSettings` action returns
`success:false` with the non-empty error string `"Database not available"`. -/
theorem dbAbsent_safe_defaults (form : FormData) (now : Nat)
    (h : formGet form "action" = some "updateSettings") :
    (runLoader none
      = { isChecked := false, settingsTableName := "example_table",
          dbAvailable := false, allSettings := [], error := none }) ∧
    ((runAction form none now).1.success = false) ∧
    (∃ e, (runAction form none now).1.error = some e ∧ e ≠ "") := by
  refine ⟨rfl, ?_, "Database not available", ?_, by decide⟩ <;>
    simp [runAction, h]

/-- Witness for C3 at the concrete toggle form. -/
theorem dbAbsent_safe_defaults_witness :
    (runLoader none
      = { isChecked := false, settingsTableName := "example_table",
          dbAvailable := false, allSettings := [], error := none }) ∧
    ((runAction (mkForm true) none 0).1.success = false) ∧
    (∃ e, (runAction (mkForm true) none 0).1.error = some e ∧ e ≠ "") :=
  dbAbsent_safe_defaults (mkForm true) 0 rfl

/-- C2: writes keep at most one row per key.  After one write to
`"test_checkbox"` the per-key bound holds; after a second write exactly one row
exists for that key, carrying the value and timestamp of the latest write;
rows for other keys are untouched and every key present before is present
after (no deletion path). -/
theorem upsert_key_invariant (t : Table) (b1 b2 : Bool) (n1 n2 : Nat)
    (hinv : ∀ k, countKey t k ≤ 1) :
    ∃ u : Table,
      ((runAction (mkForm b2) (runAction (mkForm b1) (some t) n1).2 n2).2 = some u) ∧
      (rowsFor u "test_checkbox"
        = [⟨"test_checkbox", if b2 then "true" else "false", n2⟩]) ∧
      (∀ k, countKey ((runAction (mkForm b1) (some t) n1).2.getD []) k ≤ 1) ∧
      (∀ k, countKey u k ≤ 1) ∧
      (∀ k, (∃ r ∈ t, r.key = k) → ∃ r ∈ u, r.key = k) := by
  rw [runAction_mkForm]
  rw [runAction_mkForm]
  set e1 := if b1 then "true" else "false" with he1
  set e2 := if b2 then "true" else "false" with he2
  set t1 := upsertRow t "test_checkbox" e1 n1 with ht1
  set u := upsertRow t1 "test_checkbox" e2 n2 with hu
  have hcount1 : ∀ k, countKey t1 k ≤ 1 := by
    intro k
    by_cases hk : k = "test_checkbox"
    · subst hk
      simp [countKey, ht1, rowsFor_upsert_self]
    · rw [countKey, ht1, rowsFor_upsert_other t "test_checkbox" k e1 n1 hk]
      exact hinv k
  refine ⟨u, rfl, ?_, ?_, ?_, ?_⟩
  · exact rowsFor_upsert_self t1 "test_checkbox" e2 n2
  · simpa using hcount1
  · intro k
    by_cases hk : k = "test_checkbox"
    · subst hk
      simp [countKey, hu, rowsFor_upsert_self]
    · rw [countKey, hu, rowsFor_upsert_other t1 "test_checkbox" k e2 n2 hk]
      exact hcount1 k
  · intro k hk
    by_cases hke : k = "test_checkbox"
    · subst hke
      exact ⟨⟨"test_checkbox", e2, n2⟩, by simp [hu, upsertRow], rfl⟩
    · obtain ⟨r, hr, hrk⟩ := hk
      have hrmem : r ∈ rowsFor t k := by
        simp [rowsFor, List.mem_filter, hr, hrk]
      have h1 : r ∈ rowsFor t1 k := by
        rw [ht1, rowsFor_upsert_other t "test_checkbox" k e1 n1 hke]
        exact hrmem
      have h2 : r ∈ rowsFor u k := by
        rw [hu, rowsFor_upsert_other t1 "test_checkbox" k e2 n2 hke]
        exact h1
      exact ⟨r, (List.mem_filter.mp h2).1, hrk⟩

/-- Witness for C2: two writes (true then false) starting from the empty
table. -/
theorem upsert_key_invariant_witness :
    ∃ u : Table,
      ((runAction (mkForm false) (runAction (mkForm true) (some []) 1).2 2).2
        = some u) ∧
      (rowsFor u "test_checkbox"
        = [⟨"test_checkbox", if false then "true" else "false", 2⟩]) ∧
      (∀ k, countKey ((runAction (mkForm true) (some []) 1).2.getD []) k ≤ 1) ∧
      (∀ k, countKey u k ≤ 1) ∧
      (∀ k, (∃ r ∈ ([] : Table), r.key = k) → ∃ r ∈ u, r.key = k) :=
  upsert_key_invariant [] true false 1 2 (fun k => by simp [countKey, rowsFor])

/- ## Claim about the DatabaseService accessors -/

/-- C4: each accessor (`executeQuery`, `getAllRows`, `getFirstRow`) throws
`"Database not available"` when no handle is set (no driver is consulted:
there is none), and with a handle it returns exactly the driver's error when
the driver call fails, on both the bound-params path and the no-params path —
no swallowing, no retry. -/
theorem accessor_error_propagation (d : D1Database) (q : String)
    (ps : List DbParam) (e : String) (hps : ps ≠ [])
    (hrun : d.bindRun q ps = .error e) (hexec : d.execQ q = .error e)
    (hall : d.bindAll q ps = .error e) (hallN : d.allNoBind q = .error e)
    (hfirst : d.bindFirst q ps = .error e) (hfirstN : d.firstNoBind q = .error e) :
    (DatabaseService.executeQuery none q ps = .error "Database not available") ∧
    (DatabaseService.getAllRows none q ps = .error "Database not available") ∧
    (DatabaseService.getFirstRow none q ps = .error "Database not available") ∧
    (DatabaseService.executeQuery (some d) q ps = .error e) ∧
    (DatabaseService.getAllRows (some d) q ps = .error e) ∧
    (DatabaseService.getFirstRow (some d) q ps = .error e) ∧
    (DatabaseService.executeQuery (some d) q [] = .error e) ∧
    (DatabaseService.getAllRows (some d) q [] = .error e) ∧
    (DatabaseService.getFirstRow (some d) q [] = .error e) := by
  have hlen : 0 < ps.length := List.length_pos.mpr hps
  refine ⟨rfl, rfl, rfl, ?_, ?_, ?_, ?_, ?_, ?_⟩ <;>
    simp [DatabaseService.executeQuery, DatabaseService.getAllRows,
      DatabaseService.getFirstRow, hlen, hrun, hexec, hall, hallN, hfirst,
      hfirstN]

/-- A driver whose every call fails with "boom". -/
def failingDriver : D1Database where
  execQ := fun _ => .error "boom"
  bindRun := fun _ _ => .error "boom"
  bindAll := fun _ _ => .error "boom"
  allNoBind := fun _ => .error "boom"
  bindFirst := fun _ _ => .error "boom"
  firstNoBind := fun _ => .error "boom"

/-- Witness for C4 at a concrete query against the failing driver. -/
theorem accessor_error_propagation_witness :
    (DatabaseService.executeQuery none "SELECT 1" [DbParam.str "x"]
      = .error "Database not available") ∧
    (DatabaseService.getAllRows none "SELECT 1" [DbParam.str "x"]
      = .error "Database not available") ∧
    (DatabaseService.getFirstRow none "SELECT 1" [DbParam.str "x"]
      = .error "Database not available") ∧
    (DatabaseService.executeQuery (some failingDriver) "SELECT 1"
      [DbParam.str "x"] = .error "boom") ∧
    (DatabaseService.getAllRows (some failingDriver) "SELECT 1"
      [DbParam.str "x"] = .error "boom") ∧
    (DatabaseService.getFirstRow (some failingDriver) "SELECT 1"
      [DbParam.str "x"] = .error "boom") ∧
    (DatabaseService.executeQuery (some failingDriver) "SELECT 1" []
      = .error "boom") ∧
    (DatabaseService.getAllRows (some failingDriver) "SELECT 1" []
      = .error "boom") ∧
    (DatabaseService.getFirstRow (some failingDriver) "SELECT 1" []
      = .error "boom") :=
  accessor_error_propagation failingDriver "SELECT 1" [DbParam.str "x"] "boom"
    (by simp) rfl rfl rfl rfl rfl rfl

/- ## Claims about the settings view state -/

theorem fetcherEffect_checkboxState (s : ClientState) (data : Option ActionResult) :
    (fetcherEffect s data).checkboxState = s.checkboxState := by
  unfold fetcherEffect
  rcases data with _ | ⟨suc, ic, as, er⟩
  · rfl
  · cases suc <;> cases as <;> cases her : optTruthy er <;> simp [her]

/-- C9: the toggle handler sets the displayed checkbox state to the new value
immediately (before any write completes), and the fetcher-response effect never
changes the displayed checkbox state — in particular, after a failed write the
displayed state is still the toggled value while the error message is shown. -/
theorem optimistic_toggle_not_reverted (s s2 : ClientState) (checked dbA : Bool)
    (d d2 : ActionResult) (e : String)
    (hfail : d.success = false) (herr : d.error = some e) (hne : e ≠ "") :
    ((handleCheckboxChange s checked dbA).1.checkboxState = checked) ∧
    ((fetcherEffect s2 (some d2)).checkboxState = s2.checkboxState) ∧
    ((fetcherEffect s2 none).checkboxState = s2.checkboxState) ∧
    ((fetcherEffect (handleCheckboxChange s checked dbA).1 (some d)).checkboxState
        = checked) ∧
    ((fetcherEffect (handleCheckboxChange s checked dbA).1 (some d)).saveError
        = e) := by
  refine ⟨rfl, fetcherEffect_checkboxState s2 (some d2),
    fetcherEffect_checkboxState s2 none, ?_, ?_⟩
  · rw [fetcherEffect_checkboxState]
    rfl
  · unfold fetcherEffect
    simp [hfail, herr, optTruthy, hne]

/-- Witness for C9: toggling on, then receiving a failed write response. -/
theorem optimistic_toggle_not_reverted_witness :
    ((handleCheckboxChange ⟨false, "", []⟩ true true).1.checkboxState = true) ∧
    ((fetcherEffect ⟨false, "", []⟩
        (some ⟨true, some true, some [], none⟩)).checkboxState = false) ∧
    ((fetcherEffect ⟨false, "", []⟩ none).checkboxState = false) ∧
    ((fetcherEffect (handleCheckboxChange ⟨false, "", []⟩ true true).1
        (some ⟨false, none, none, some "Database not available"⟩)).checkboxState
      = true) ∧
    ((fetcherEffect (handleCheckboxChange ⟨false, "", []⟩ true true).1
        (some ⟨false, none, none, some "Database not available"⟩)).saveError
      = "Database not available") :=
  optimistic_toggle_not_reverted ⟨false, "", []⟩ ⟨false, "", []⟩ true true
    ⟨false, none, none, some "Database not available"⟩
    ⟨true, some true, some [], none⟩ "Database not available" rfl rfl (by decide)

/- ## Claim about the modal save handler -/

/-- C7: when the name input is empty or whitespace-only (trims to empty),
`handleSave` changes nothing — submitted names, status log, input value and
modal visibility are all exactly as before — and only the transient toast is
shown. -/
theorem emptyName_save_rejected (s : GalleryState) (currentTime : String)
    (nowId : Nat) (h : s.nameInputValue.trim = "") :
    handleSave s currentTime nowId = (s, true) := by
  have htrim : (s.nameInputValue.trim != "") = false := by simp [h]
  simp [handleSave, htrim]

theorem trim_spaces : "   ".trim = "" := by
  show (Substring.trim ⟨"   ", 0, "   ".endPos⟩).toString = ""
  rw [Substring.trim]
  rw [Substring.takeWhileAux, dif_pos (by decide), if_pos (by decide)]
  rw [Substring.takeWhileAux, dif_pos (by decide), if_pos (by decide)]
  rw [Substring.takeWhileAux, dif_pos (by decide), if_pos (by decide)]
  rw [Substring.takeWhileAux, dif_neg (by decide)]
  rw [Substring.takeRightWhileAux, dif_neg (by decide)]
  rfl

/-- Witness for C7 on a whitespace-only input with the modal open. -/
theorem emptyName_save_rejected_witness :
    handleSave ⟨[("a", "t1")], [], "   ", true⟩ "t2" 7
      = (⟨[("a", "t1")], [], "   ", true⟩, true) :=
  emptyName_save_rejected ⟨[("a", "t1")], [], "   ", true⟩ "t2" 7 trim_spaces

/- ## Claims about status-table sorting -/

/-- C5: clicking a column that is not the currently sorted one sorts it
ascending; clicking the same column again toggles to descending; a further
click toggles back to ascending. -/
theorem sort_direction_toggle (cfg : SortConfig) (k : SortKey)
    (h : cfg.key ≠ some k) :
    ((handleSort cfg k).direction = SortDir.asc) ∧
    ((handleSort (handleSort cfg k) k).direction = SortDir.desc) ∧
    ((handleSort (handleSort (handleSort cfg k) k) k).direction
      = SortDir.asc) := by
  simp [handleSort, h]

/-- Witness for C5: clicking the name column three times from the initial
state. -/
theorem sort_direction_toggle_witness :
    ((handleSort initialSortConfig SortKey.name).direction = SortDir.asc) ∧
    ((handleSort (handleSort initialSortConfig SortKey.name)
        SortKey.name).direction = SortDir.desc) ∧
    ((handleSort (handleSort (handleSort initialSortConfig SortKey.name)
        SortKey.name) SortKey.name).direction = SortDir.asc) :=
  sort_direction_toggle initialSortConfig SortKey.name (by decide)

/-- C6 fails on the code: starting unsorted, the third click on the same column
yields ascending again, not the unsorted state; the unsorted (`key: null`)
state is never re-entered. -/
theorem sort_cycle_counterexample :
    ((handleSort (handleSort (handleSort initialSortConfig SortKey.name)
        SortKey.name) SortKey.name)
      = ⟨some SortKey.name, SortDir.asc⟩) ∧
    ((handleSort (handleSort (handleSort initialSortConfig SortKey.name)
        SortKey.name) SortKey.name).key ≠ none) := by
  decide

/-- C6 amended: starting from the unsorted state, repeated sorts of one column
step none → ascending → descending and then alternate ascending/descending;
after any sort the key is set, so the unsorted state occurs only initially and
is not reachable through sorting. -/
theorem sort_cycle_amended (c : SortConfig) (k : SortKey) :
    (handleSort initialSortConfig k = ⟨some k, SortDir.asc⟩) ∧
    (handleSort (handleSort initialSortConfig k) k = ⟨some k, SortDir.desc⟩) ∧
    (handleSort (handleSort (handleSort initialSortConfig k) k) k
      = ⟨some k, SortDir.asc⟩) ∧
    ((handleSort c k).key = some k) := by
  refine ⟨?_, ?_, ?_, rfl⟩ <;> simp [handleSort, initialSortConfig]

theorem jsLe_asc_iff (k : SortKey) (a b : StatusEntry) :
    jsLe k SortDir.asc a b = true ↔ colVal k a ≤ colVal k b := by
  unfold jsLe jsCompare
  rcases lt_trichotomy (colVal k a) (colVal k b) with h | h | h
  · simp [h, h.le]
  · simp [h]
  · simp [h.not_lt, h, h.not_le]

theorem jsLe_desc_iff (k : SortKey) (a b : StatusEntry) :
    jsLe k SortDir.desc a b = true ↔ colVal k b ≤ colVal k a := by
  unfold jsLe jsCompare
  rcases lt_trichotomy (colVal k a) (colVal k b) with h | h | h
  · simp [h, h.not_le]
  · simp [h]
  · simp [h.not_lt, h, h.le]

theorem jsLe_trans (k : SortKey) (dir : SortDir) :
    ∀ a b c : StatusEntry, jsLe k dir a b → jsLe k dir b c → jsLe k dir a c := by
  intro a b c hab hbc
  cases dir
  · exact (jsLe_asc_iff k a c).mpr
      (le_trans ((jsLe_asc_iff k a b).mp hab) ((jsLe_asc_iff k b c).mp hbc))
  · exact (jsLe_desc_iff k a c).mpr
      (le_trans ((jsLe_desc_iff k b c).mp hbc) ((jsLe_desc_iff k a b).mp hab))

theorem jsLe_total (k : SortKey) (dir : SortDir) :
    ∀ a b : StatusEntry, jsLe k dir a b || jsLe k dir b a := by
  intro a b
  rw [Bool.or_eq_true]
  cases dir
  · rw [jsLe_asc_iff, jsLe_asc_iff]
    exact le_total (colVal k a) (colVal k b)
  · rw [jsLe_desc_iff, jsLe_desc_iff]
    exact le_total (colVal k b) (colVal k a)

theorem jsLe_of_colVal_eq (k : SortKey) (dir : SortDir) {a b : StatusEntry}
    (h : colVal k a = colVal k b) : jsLe k dir a b = true := by
  cases dir
  · exact (jsLe_asc_iff k a b).mpr h.le
  · exact (jsLe_desc_iff k a b).mpr h.ge

theorem pairwise_jsLe_of_const (k : SortKey) (dir : SortDir) (v : String) :
    ∀ m : List StatusEntry, (∀ x ∈ m, colVal k x = v) →
      m.Pairwise (fun a b => jsLe k dir a b = true) := by
  intro m
  induction m with
  | nil => intro _; exact List.Pairwise.nil
  | cons x xs ih =>
    intro h
    refine List.Pairwise.cons ?_ (ih ?_)
    · intro y hy
      exact jsLe_of_colVal_eq k dir
        (by rw [h x (List.mem_cons_self x xs), h y (List.mem_cons_of_mem x hy)])
    · intro y hy
      exact h y (List.mem_cons_of_mem x hy)

/-- C8: for any chosen column and direction, the displayed sorted list is a
permutation of the status list, it is ordered by the comparator-induced
relation on that column, entries whose column values are equal keep their
original relative order (filtering by any column value gives the same
subsequence as in the input), and with no sort key the list itself is
returned.  The underlying list is never modified: `sortedComponentStatusData`
is a pure function of it (the source sorts a spread copy). -/
theorem status_sort_correct (k : SortKey) (dir : SortDir)
    (l : List StatusEntry) :
    ((sortedComponentStatusData ⟨some k, dir⟩ l).Perm l) ∧
    ((sortedComponentStatusData ⟨some k, dir⟩ l).Pairwise
      (fun a b => jsLe k dir a b = true)) ∧
    (∀ v : String,
      (sortedComponentStatusData ⟨some k, dir⟩ l).filter
          (fun e => colVal k e == v)
        = l.filter (fun e => colVal k e == v)) ∧
    (sortedComponentStatusData ⟨none, dir⟩ l = l) := by
  refine ⟨List.mergeSort_perm l _,
    List.sorted_mergeSort (jsLe_trans k dir) (jsLe_total k dir) l, ?_, rfl⟩
  intro v
  have hpw : (l.filter (fun e => colVal k e == v)).Pairwise
      (fun a b => jsLe k dir a b = true) := by
    refine pairwise_jsLe_of_const k dir v _ ?_
    intro x hx
    have := (List.mem_filter.mp hx).2
    simpa using this
  have hsub : List.Sublist (l.filter (fun e => colVal k e == v))
      (l.mergeSort (jsLe k dir)) :=
    List.sublist_mergeSort (jsLe_trans k dir) (jsLe_total k dir) hpw
      (List.filter_sublist l)
  have hsub2 := hsub.filter (fun e => colVal k e == v)
  rw [List.filter_filter] at hsub2
  simp only [Bool.and_self] at hsub2
  have hperm : List.Perm
      ((l.mergeSort (jsLe k dir)).filter (fun e => colVal k e == v))
      (l.filter (fun e => colVal k e == v)) :=
    (List.mergeSort_perm l (jsLe k dir)).filter _
  exact (hsub2.eq_of_length hperm.length_eq.symm).symm
